import Mathlib

/-!
Shallow embedding of the DNS-record management backend (src/backend/server.py).

The document store (MongoDB collections `users` and `dns_records`) is modelled
as lists of structures; `find_one` is `List.find?`, `update_one` updates the
first matching element, `delete_one` removes the first matching element, and
`insert_one` appends.  Each Cloudflare provider call is an injected outcome
(`Except String _`: error message, or the provider-assigned record id), since
the real call is a network request.  Handlers thread the database state
explicitly and return `DB × Except HTTPException α`, mirroring FastAPI's
`raise HTTPException(status_code, detail)`.
-/

deriving instance DecidableEq for Except

namespace DDNS

/-- Mirrors FastAPI's HTTPException: a status code and a detail message. -/
structure HTTPException where
  status_code : Nat
  detail : String
deriving DecidableEq, Repr

/-- A document of the `users` collection (see `register`'s `user_doc`).
Counter fields are `Int`: the code manipulates them with unguarded `$inc`. -/
structure User where
  id : String
  email : String
  name : String
  password_hash : String
  plan : String
  role : String
  record_count : Int
  record_limit : Int
  referral_code : String
  referred_by : Option String
  referral_count : Int
  referral_bonus : Int
  created_at : String
deriving DecidableEq, Repr

/-- A document of the `dns_records` collection (see `create_record`'s `record_doc`). -/
structure DNSRecord where
  id : String
  cf_record_id : String
  user_id : String
  name : String
  full_name : String
  record_type : String
  content : String
  ttl : Nat
  proxied : Bool
  created_at : String
deriving DecidableEq, Repr

/-- The two collections the modelled handlers touch. -/
structure DB where
  users : List User
  dns_records : List DNSRecord
deriving DecidableEq, Repr

/-- Request body `DNSRecordCreate`. -/
structure DNSRecordCreate where
  name : String
  record_type : String
  content : String
  ttl : Nat := 1
  proxied : Bool := false
deriving DecidableEq, Repr

/-- Request body `AdminDNSRecordCreate`. -/
structure AdminDNSRecordCreate where
  user_id : String
  name : String
  record_type : String
  content : String
  ttl : Nat := 1
  proxied : Bool := false
deriving DecidableEq, Repr

/-- Request body `DNSRecordUpdate`: every field optional. -/
structure DNSRecordUpdate where
  content : Option String := none
  ttl : Option Nat := none
  proxied : Option Bool := none
deriving DecidableEq, Repr

/-- Request body `UserRegister`. -/
structure UserRegister where
  email : String
  password : String
  name : String
  referral_code : Option String := none
deriving DecidableEq, Repr

/-- Python `str.lower`, character by character (kernel-reducible stand-in for
`String.toLower`). -/
def strLower (s : String) : String := ⟨s.data.map Char.toLower⟩

/-- Python `str.endswith`, over the strings' characters (kernel-reducible
stand-in for `String.endsWith`). -/
def strEndsWith (s suf : String) : Bool := suf.data.isSuffixOf s.data

/-- Mongo `update_one`: apply `f` to the first element satisfying `p`. -/
def updateOne (p : α → Bool) (f : α → α) : List α → List α
  | [] => []
  | x :: xs => if p x then f x :: xs else x :: updateOne p f xs

/-- Mongo `delete_one`: remove the first element satisfying `p`. -/
def deleteOne (p : α → Bool) : List α → List α
  | [] => []
  | x :: xs => if p x then xs else x :: deleteOne p xs

/-- The full-name rule shared by `cf_create_record`, `create_record` and
`admin_create_record`:
`f"{name}.{CF_ZONE_DOMAIN}" if name != "@" else CF_ZONE_DOMAIN`. -/
def computeFullName (zone name : String) : String :=
  if name != "@" then name ++ "." ++ zone else zone

/-- `GET /dns/records` (`list_records`): the caller's records, capped by
`.to_list(100)` (natural = insertion order). -/
def list_records (u : User) (db : DB) : List DNSRecord :=
  (db.dns_records.filter (fun r => r.user_id == u.id)).take 100

/-- `POST /dns/records` (`create_record`).  `zone` is `CF_ZONE_DOMAIN`; `cf` is
the outcome of `cf_create_record` (error detail, or the Cloudflare record id);
`newId` and `createdAt` stand for `uuid.uuid4()` and `datetime.now(...)`. -/
def create_record (zone : String) (cf : Except String String)
    (newId createdAt : String) (rd : DNSRecordCreate) (u : User) (db : DB) :
    DB × Except HTTPException DNSRecord :=
  if !(["A", "AAAA", "CNAME"].contains rd.record_type) then
    (db, .error ⟨400, "Only A, AAAA, and CNAME records are supported"⟩)
  else
    let record_count := (db.dns_records.filter (fun r => r.user_id == u.id)).length
    if (record_count : Int) ≥ u.record_limit then
      (db, .error ⟨403, "Record limit reached (" ++ toString u.record_limit ++
        "). Upgrade your plan for more records."⟩)
    else
      let full_name := computeFullName zone rd.name
      match db.dns_records.find?
          (fun r => r.full_name == full_name && r.record_type == rd.record_type) with
      | some _ =>
        (db, .error ⟨400, "Record " ++ full_name ++ " (" ++ rd.record_type ++
          ") already exists"⟩)
      | none =>
        match cf with
        | .error m => (db, .error ⟨400, m⟩)
        | .ok cfId =>
          let record_doc : DNSRecord :=
            { id := newId, cf_record_id := cfId, user_id := u.id,
              name := rd.name, full_name := full_name,
              record_type := rd.record_type, content := rd.content,
              ttl := rd.ttl, proxied := rd.proxied, created_at := createdAt }
          ({ users := updateOne (fun x => x.id == u.id)
                (fun x => { x with record_count := x.record_count + 1 }) db.users,
             dns_records := db.dns_records ++ [record_doc] },
           .ok record_doc)

/-- `PUT /dns/records/{record_id}` (`update_record`).  `cf` is the outcome of
`cf_update_record`. -/
def update_record (cf : Except String Unit) (record_id : String)
    (upd : DNSRecordUpdate) (u : User) (db : DB) :
    DB × Except HTTPException DNSRecord :=
  match db.dns_records.find? (fun r => r.id == record_id && r.user_id == u.id) with
  | none => (db, .error ⟨404, "Record not found"⟩)
  | some r =>
    let content := upd.content.getD r.content
    let ttl := upd.ttl.getD r.ttl
    let proxied := upd.proxied.getD r.proxied
    match cf with
    | .error m => (db, .error ⟨400, m⟩)
    | .ok _ =>
      let merged : DNSRecord := { r with content := content, ttl := ttl, proxied := proxied }
      let recs := updateOne (fun x => x.id == record_id)
        (fun x => { x with content := content, ttl := ttl, proxied := proxied })
        db.dns_records
      ({ db with dns_records := recs }, .ok merged)

/-- `DELETE /dns/records/{record_id}` (`delete_record`).  `cf` is the outcome
of `cf_delete_record`. -/
def delete_record (cf : Except String Unit) (record_id : String)
    (u : User) (db : DB) : DB × Except HTTPException String :=
  match db.dns_records.find? (fun r => r.id == record_id && r.user_id == u.id) with
  | none => (db, .error ⟨404, "Record not found"⟩)
  | some _ =>
    match cf with
    | .error m => (db, .error ⟨400, m⟩)
    | .ok _ =>
      ({ users := updateOne (fun x => x.id == u.id)
            (fun x => { x with record_count := x.record_count - 1 }) db.users,
         dns_records := deleteOne (fun x => x.id == record_id) db.dns_records },
       .ok "Record deleted successfully")

/-- `POST /admin/dns/records` (`admin_create_record`): validates the type and
the target user's existence, computes the full name, and calls the provider —
with no quota check and no duplicate check. -/
def admin_create_record (zone : String) (cf : Except String String)
    (newId createdAt : String) (rd : AdminDNSRecordCreate) (db : DB) :
    DB × Except HTTPException DNSRecord :=
  if !(["A", "AAAA", "CNAME"].contains rd.record_type) then
    (db, .error ⟨400, "Only A, AAAA, and CNAME records are supported"⟩)
  else
    match db.users.find? (fun x => x.id == rd.user_id) with
    | none => (db, .error ⟨404, "User not found"⟩)
    | some _ =>
      let full_name := computeFullName zone rd.name
      match cf with
      | .error m => (db, .error ⟨400, m⟩)
      | .ok cfId =>
        let record_doc : DNSRecord :=
          { id := newId, cf_record_id := cfId, user_id := rd.user_id,
            name := rd.name, full_name := full_name,
            record_type := rd.record_type, content := rd.content,
            ttl := rd.ttl, proxied := rd.proxied, created_at := createdAt }
        ({ users := updateOne (fun x => x.id == rd.user_id)
              (fun x => { x with record_count := x.record_count + 1 }) db.users,
           dns_records := db.dns_records ++ [record_doc] },
         .ok record_doc)

/-- `POST /auth/register` (`register`).  `default_free` is
`settings.default_free_records` (fallback `PLAN_LIMITS["free"]`), `bonus` is
`settings.referral_bonus_per_invite` (fallback 1); `newUserId`, `refCode`,
`pwHash`, `createdAt` stand for the generated uuid, the generated referral
code, the bcrypt hash and the timestamp.  Python's
`if user_data.referral_code:` is falsy on both `None` and the empty string. -/
def register (default_free bonus : Int)
    (newUserId refCode pwHash createdAt : String)
    (reg : UserRegister) (db : DB) : DB × Except HTTPException User :=
  if !(strEndsWith (strLower reg.email) "@gmail.com") then
    (db, .error ⟨400, "Only Gmail addresses (@gmail.com) are allowed for registration."⟩)
  else if (db.users.find? (fun x => x.email == reg.email)).isSome then
    (db, .error ⟨400, "Email already registered"⟩)
  else
    let base : User :=
      { id := newUserId, email := reg.email, name := reg.name,
        password_hash := pwHash, plan := "free", role := "user",
        record_count := 0, record_limit := default_free,
        referral_code := refCode, referred_by := none,
        referral_count := 0, referral_bonus := 0, created_at := createdAt }
    let code := reg.referral_code.getD ""
    if code != "" then
      match db.users.find? (fun x => x.referral_code == code) with
      | some referrer =>
        let user_doc := { base with referred_by := some referrer.id }
        let users1 := updateOne (fun x => x.id == referrer.id)
          (fun x => { x with record_limit := x.record_limit + bonus,
                             referral_count := x.referral_count + 1,
                             referral_bonus := x.referral_bonus + bonus })
          db.users
        ({ db with users := users1 ++ [user_doc] }, .ok user_doc)
      | none => ({ db with users := db.users ++ [base] }, .ok base)
    else
      ({ db with users := db.users ++ [base] }, .ok base)

/-! ### Generic lemmas about the store primitives -/

theorem find?_updateOne (p : α → Bool) (f : α → α) (l : List α) (r : α)
    (h : l.find? p = some r) (hf : p (f r) = true) :
    (updateOne p f l).find? p = some (f r) := by
  induction l with
  | nil => simp at h
  | cons x xs ih =>
    by_cases hx : p x = true
    · rw [List.find?_cons_of_pos _ hx] at h
      cases h
      simp only [updateOne]
      rw [if_pos hx]
      exact List.find?_cons_of_pos _ hf
    · rw [List.find?_cons_of_neg _ hx] at h
      simp only [updateOne]
      rw [if_neg hx, List.find?_cons_of_neg _ hx]
      exact ih h

theorem mem_updateOne_of_neg (p : α → Bool) (f : α → α) {x : α} {l : List α}
    (hx : x ∈ l) (hpx : p x = false) : x ∈ updateOne p f l := by
  induction l with
  | nil => simp at hx
  | cons a as ih =>
    rcases List.mem_cons.mp hx with h | h
    · subst h
      simp only [updateOne]
      rw [if_neg (by simp [hpx])]
      exact List.mem_cons_self _ _
    · simp only [updateOne]
      by_cases ha : p a = true
      · rw [if_pos ha]
        exact List.mem_cons_of_mem _ h
      · rw [if_neg ha]
        exact List.mem_cons_of_mem _ (ih h)

theorem find?_append_left (p : α → Bool) (l₁ l₂ : List α) (r : α)
    (h : l₁.find? p = some r) : (l₁ ++ l₂).find? p = some r := by
  induction l₁ with
  | nil => simp at h
  | cons x xs ih =>
    by_cases hx : p x = true
    · rw [List.find?_cons_of_pos _ hx] at h
      rw [List.cons_append, List.find?_cons_of_pos _ hx]
      exact h
    · rw [List.find?_cons_of_neg _ hx] at h
      rw [List.cons_append, List.find?_cons_of_neg _ hx]
      exact ih h

/-! ### Fixtures for witnesses and counterexamples -/

/-- A concrete stored account, owner of `recA`. -/
def userA : User :=
  { id := "user-a", email := "a@gmail.com", name := "Alice",
    password_hash := "ha", plan := "free", role := "user",
    record_count := 1, record_limit := 2, referral_code := "code-a",
    referred_by := none, referral_count := 0, referral_bonus := 0,
    created_at := "t0" }

/-- A concrete stored record owned by `userA`. -/
def recA : DNSRecord :=
  { id := "rec-a", cf_record_id := "cf-a", user_id := "user-a",
    name := "www", full_name := "www.example.com", record_type := "A",
    content := "1.1.1.1", ttl := 1, proxied := false, created_at := "t0" }

/-! ### Claim theorems -/

/-- Claim C10: a registration whose email, lowercased, does not end with
"@gmail.com" fails with a caller-fixable 400 error, and the database (hence
every account, referrer counter, and record) is returned unchanged. -/
theorem register_rejects_non_gmail (default_free bonus : Int)
    (newUserId refCode pwHash createdAt : String) (reg : UserRegister) (db : DB)
    (h : strEndsWith (strLower reg.email) "@gmail.com" = false) :
    register default_free bonus newUserId refCode pwHash createdAt reg db =
      (db, .error ⟨400, "Only Gmail addresses (@gmail.com) are allowed for registration."⟩) := by
  simp [register, h]

/-- Witness for C10 at a concrete non-Gmail registration. -/
theorem register_rejects_non_gmail_witness :
    strEndsWith (strLower "bob@example.com") "@gmail.com" = false ∧
    register 2 1 "user-b" "code-b" "hb" "t1"
      { email := "bob@example.com", password := "secret1", name := "Bob" }
      { users := [userA], dns_records := [] } =
      ({ users := [userA], dns_records := [] },
       .error ⟨400, "Only Gmail addresses (@gmail.com) are allowed for registration."⟩) :=
  ⟨by decide,
   register_rejects_non_gmail 2 1 "user-b" "code-b" "hb" "t1"
     { email := "bob@example.com", password := "secret1", name := "Bob" }
     { users := [userA], dns_records := [] } (by decide)⟩

/-- Claim C2: with a supported record type, when the owner's current
owned-record count (counted live from the Record Store) is at or above
`record_limit`, `create_record` fails with the 403 quota error, the detail
message contains the numeric limit, and the database — both the Record Store
and the owner's `record_count` — is returned unchanged. -/
theorem create_record_quota_exceeded (zone : String) (cf : Except String String)
    (newId createdAt : String) (rd : DNSRecordCreate) (u : User) (db : DB)
    (hty : ["A", "AAAA", "CNAME"].contains rd.record_type = true)
    (hq : ((db.dns_records.filter (fun r => r.user_id == u.id)).length : Int) ≥ u.record_limit) :
    create_record zone cf newId createdAt rd u db =
      (db, .error ⟨403, "Record limit reached (" ++ toString u.record_limit ++
        "). Upgrade your plan for more records."⟩) ∧
    ∃ pre suf, "Record limit reached (" ++ toString u.record_limit ++
        "). Upgrade your plan for more records." =
      pre ++ toString u.record_limit ++ suf := by
  refine ⟨?_, "Record limit reached (", "). Upgrade your plan for more records.", rfl⟩
  unfold create_record
  rw [hty]
  simp [hq]

/-- Witness for C2: an owner at limit 0 with zero records. -/
theorem create_record_quota_exceeded_witness :
    (["A", "AAAA", "CNAME"].contains "A" = true) ∧
    ((((({ users := [{ userA with record_limit := 0 }], dns_records := [] } : DB)).dns_records.filter
        (fun r => r.user_id == ({ userA with record_limit := 0 } : User).id)).length : Int) ≥
      ({ userA with record_limit := 0 } : User).record_limit) ∧
    (create_record "example.com" (.ok "cf-new") "rec-new" "t1"
        { name := "www", record_type := "A", content := "1.1.1.1" }
        { userA with record_limit := 0 }
        { users := [{ userA with record_limit := 0 }], dns_records := [] } =
      ({ users := [{ userA with record_limit := 0 }], dns_records := [] },
       .error ⟨403, "Record limit reached (" ++
         toString ({ userA with record_limit := 0 } : User).record_limit ++
         "). Upgrade your plan for more records."⟩) ∧
     ∃ pre suf, "Record limit reached (" ++
         toString ({ userA with record_limit := 0 } : User).record_limit ++
         "). Upgrade your plan for more records." =
       pre ++ toString ({ userA with record_limit := 0 } : User).record_limit ++ suf) :=
  ⟨by decide, by decide,
   create_record_quota_exceeded "example.com" (.ok "cf-new") "rec-new" "t1"
     { name := "www", record_type := "A", content := "1.1.1.1" }
     { userA with record_limit := 0 }
     { users := [{ userA with record_limit := 0 }], dns_records := [] }
     (by decide) (by decide)⟩

/-- Claim C3: with a supported type and the quota check passing, when some
existing record — regardless of its owner — already has the computed
(full name, type) pair, `create_record` fails with the 400 duplicate error,
the detail message contains the computed full name and the type, and the
existing record is still in the returned Record Store. -/
theorem create_record_duplicate (zone : String) (cf : Except String String)
    (newId createdAt : String) (rd : DNSRecordCreate) (u : User) (db : DB)
    (ex : DNSRecord)
    (hty : ["A", "AAAA", "CNAME"].contains rd.record_type = true)
    (hq : ((db.dns_records.filter (fun r => r.user_id == u.id)).length : Int) < u.record_limit)
    (hdup : db.dns_records.find?
      (fun r => r.full_name == computeFullName zone rd.name &&
        r.record_type == rd.record_type) = some ex) :
    create_record zone cf newId createdAt rd u db =
      (db, .error ⟨400, "Record " ++ computeFullName zone rd.name ++ " (" ++
        rd.record_type ++ ") already exists"⟩) ∧
    ex ∈ (create_record zone cf newId createdAt rd u db).1.dns_records ∧
    ∃ pre mid suf, "Record " ++ computeFullName zone rd.name ++ " (" ++
        rd.record_type ++ ") already exists" =
      pre ++ computeFullName zone rd.name ++ mid ++ rd.record_type ++ suf := by
  have hmain : create_record zone cf newId createdAt rd u db =
      (db, .error ⟨400, "Record " ++ computeFullName zone rd.name ++ " (" ++
        rd.record_type ++ ") already exists"⟩) := by
    unfold create_record
    rw [hty]
    simp [not_le.mpr hq, hdup]
  refine ⟨hmain, ?_, "Record ", " (", ") already exists", rfl⟩
  rw [hmain]
  exact List.mem_of_find?_eq_some hdup

/-- Witness for C3: the duplicate is owned by a different account than the
caller, and the second create still fails with the duplicate error. -/
theorem create_record_duplicate_witness :
    (["A", "AAAA", "CNAME"].contains "A" = true) ∧
    ((((({ users := [userA], dns_records := [{ recA with user_id := "user-x" }] } : DB)).dns_records.filter
        (fun r => r.user_id == userA.id)).length : Int) < userA.record_limit) ∧
    (([{ recA with user_id := "user-x" }] : List DNSRecord).find?
      (fun r => r.full_name == computeFullName "example.com" "www" &&
        r.record_type == "A") = some { recA with user_id := "user-x" }) ∧
    (create_record "example.com" (.ok "cf-new") "rec-new" "t1"
        { name := "www", record_type := "A", content := "2.2.2.2" } userA
        { users := [userA], dns_records := [{ recA with user_id := "user-x" }] } =
      ({ users := [userA], dns_records := [{ recA with user_id := "user-x" }] },
       .error ⟨400, "Record " ++ computeFullName "example.com" "www" ++ " (" ++
         "A" ++ ") already exists"⟩) ∧
     { recA with user_id := "user-x" } ∈
       (create_record "example.com" (.ok "cf-new") "rec-new" "t1"
         { name := "www", record_type := "A", content := "2.2.2.2" } userA
         { users := [userA], dns_records := [{ recA with user_id := "user-x" }] }).1.dns_records ∧
     ∃ pre mid suf, "Record " ++ computeFullName "example.com" "www" ++ " (" ++
         "A" ++ ") already exists" =
       pre ++ computeFullName "example.com" "www" ++ mid ++ "A" ++ suf) :=
  ⟨by decide, by decide, by decide,
   create_record_duplicate "example.com" (.ok "cf-new") "rec-new" "t1"
     { name := "www", record_type := "A", content := "2.2.2.2" } userA
     { users := [userA], dns_records := [{ recA with user_id := "user-x" }] }
     { recA with user_id := "user-x" } (by decide) (by decide) (by decide)⟩

/-- Claim C5: when the record lookup succeeds but the provider call fails,
both `update_record` and `delete_record` return the 400 provider error with
the provider's message, the record is still in the Record Store with its
pre-operation field values, and the `users` collection (hence the owner's
`record_count`) is unchanged. -/
theorem provider_failure_aborts (m₁ m₂ rid₁ rid₂ : String) (upd : DNSRecordUpdate)
    (u : User) (db : DB) (r₁ r₂ : DNSRecord)
    (h₁ : db.dns_records.find? (fun x => x.id == rid₁ && x.user_id == u.id) = some r₁)
    (h₂ : db.dns_records.find? (fun x => x.id == rid₂ && x.user_id == u.id) = some r₂) :
    update_record (.error m₁) rid₁ upd u db = (db, .error ⟨400, m₁⟩) ∧
    delete_record (.error m₂) rid₂ u db = (db, .error ⟨400, m₂⟩) ∧
    r₁ ∈ (update_record (.error m₁) rid₁ upd u db).1.dns_records ∧
    r₂ ∈ (delete_record (.error m₂) rid₂ u db).1.dns_records ∧
    (update_record (.error m₁) rid₁ upd u db).1.users = db.users ∧
    (delete_record (.error m₂) rid₂ u db).1.users = db.users := by
  have hu : update_record (.error m₁) rid₁ upd u db = (db, .error ⟨400, m₁⟩) := by
    simp [update_record, h₁]
  have hd : delete_record (.error m₂) rid₂ u db = (db, .error ⟨400, m₂⟩) := by
    simp [delete_record, h₂]
  refine ⟨hu, hd, ?_, ?_, ?_, ?_⟩
  · rw [hu]
    exact List.mem_of_find?_eq_some h₁
  · rw [hd]
    exact List.mem_of_find?_eq_some h₂
  · rw [hu]
  · rw [hd]

/-- Witness for C5 on a concrete one-record database. -/
theorem provider_failure_aborts_witness :
    (([recA] : List DNSRecord).find?
      (fun x => x.id == "rec-a" && x.user_id == userA.id) = some recA) ∧
    (update_record (.error "cf-down") "rec-a" { content := some "9.9.9.9" } userA
        { users := [userA], dns_records := [recA] } =
      ({ users := [userA], dns_records := [recA] }, .error ⟨400, "cf-down"⟩) ∧
     delete_record (.error "cf-out") "rec-a" userA
        { users := [userA], dns_records := [recA] } =
      ({ users := [userA], dns_records := [recA] }, .error ⟨400, "cf-out"⟩) ∧
     recA ∈ (update_record (.error "cf-down") "rec-a" { content := some "9.9.9.9" } userA
        { users := [userA], dns_records := [recA] }).1.dns_records ∧
     recA ∈ (delete_record (.error "cf-out") "rec-a" userA
        { users := [userA], dns_records := [recA] }).1.dns_records ∧
     (update_record (.error "cf-down") "rec-a" { content := some "9.9.9.9" } userA
        { users := [userA], dns_records := [recA] }).1.users = [userA] ∧
     (delete_record (.error "cf-out") "rec-a" userA
        { users := [userA], dns_records := [recA] }).1.users = [userA]) :=
  ⟨by decide,
   provider_failure_aborts "cf-down" "cf-out" "rec-a" "rec-a"
     { content := some "9.9.9.9" } userA
     { users := [userA], dns_records := [recA] } recA recA (by decide) (by decide)⟩

/-- Claim C6: when no record with the given id is owned by the caller —
whether the id is absent altogether or present but owned by another account —
`update_record` and `delete_record` fail with the 404 "Record not found"
response and leave the database unchanged, and the responses in any two such
situations are equal (indistinguishability). -/
theorem notfound_indistinguishable (cfU cfD : Except String Unit) (rid : String)
    (upd : DNSRecordUpdate) (u : User) (db₁ db₂ : DB)
    (h₁ : db₁.dns_records.find? (fun r => r.id == rid && r.user_id == u.id) = none)
    (h₂ : db₂.dns_records.find? (fun r => r.id == rid && r.user_id == u.id) = none) :
    update_record cfU rid upd u db₁ = (db₁, .error ⟨404, "Record not found"⟩) ∧
    delete_record cfD rid u db₁ = (db₁, .error ⟨404, "Record not found"⟩) ∧
    (update_record cfU rid upd u db₁).2 = (update_record cfU rid upd u db₂).2 ∧
    (delete_record cfD rid u db₁).2 = (delete_record cfD rid u db₂).2 := by
  have hu₁ : update_record cfU rid upd u db₁ = (db₁, .error ⟨404, "Record not found"⟩) := by
    simp [update_record, h₁]
  have hu₂ : update_record cfU rid upd u db₂ = (db₂, .error ⟨404, "Record not found"⟩) := by
    simp [update_record, h₂]
  have hd₁ : delete_record cfD rid u db₁ = (db₁, .error ⟨404, "Record not found"⟩) := by
    simp [delete_record, h₁]
  have hd₂ : delete_record cfD rid u db₂ = (db₂, .error ⟨404, "Record not found"⟩) := by
    simp [delete_record, h₂]
  exact ⟨hu₁, hd₁, by rw [hu₁, hu₂], by rw [hd₁, hd₂]⟩

/-- Witness for C6: `db₁` lacks the id entirely; in `db₂` the id exists but is
owned by another account; both runs give the same 404 response. -/
theorem notfound_indistinguishable_witness :
    (([] : List DNSRecord).find?
      (fun r => r.id == "rec-a" && r.user_id == userA.id) = none) ∧
    (([{ recA with user_id := "user-x" }] : List DNSRecord).find?
      (fun r => r.id == "rec-a" && r.user_id == userA.id) = none) ∧
    (update_record (.ok ()) "rec-a" { content := some "9.9.9.9" } userA
        { users := [userA], dns_records := [] } =
      ({ users := [userA], dns_records := [] }, .error ⟨404, "Record not found"⟩) ∧
     delete_record (.ok ()) "rec-a" userA
        { users := [userA], dns_records := [] } =
      ({ users := [userA], dns_records := [] }, .error ⟨404, "Record not found"⟩) ∧
     (update_record (.ok ()) "rec-a" { content := some "9.9.9.9" } userA
        { users := [userA], dns_records := [] }).2 =
       (update_record (.ok ()) "rec-a" { content := some "9.9.9.9" } userA
        { users := [userA], dns_records := [{ recA with user_id := "user-x" }] }).2 ∧
     (delete_record (.ok ()) "rec-a" userA
        { users := [userA], dns_records := [] }).2 =
       (delete_record (.ok ()) "rec-a" userA
        { users := [userA], dns_records := [{ recA with user_id := "user-x" }] }).2) :=
  ⟨by decide, by decide,
   notfound_indistinguishable (.ok ()) (.ok ()) "rec-a"
     { content := some "9.9.9.9" } userA
     { users := [userA], dns_records := [] }
     { users := [userA], dns_records := [{ recA with user_id := "user-x" }] }
     (by decide) (by decide)⟩

/-- Claim C7: `update_record` has merge semantics.  The returned and persisted
record takes `content`, `ttl`, `proxied` from the payload when supplied and
from the stored record otherwise (`Option.getD`), and — being `{ r with ... }`
over only those three fields — keeps the stored record's `record_type`,
`name`, `full_name`, `cf_record_id`, `user_id` and `created_at` unchanged.
Records with a different id are untouched, as is the `users` collection. -/
theorem update_record_merge (rid : String) (upd : DNSRecordUpdate) (u : User)
    (db : DB) (r : DNSRecord)
    (hfind : db.dns_records.find? (fun x => x.id == rid && x.user_id == u.id) = some r)
    (hid : db.dns_records.find? (fun x => x.id == rid) = some r) :
    (update_record (.ok ()) rid upd u db).2 =
      .ok { r with content := upd.content.getD r.content,
                   ttl := upd.ttl.getD r.ttl,
                   proxied := upd.proxied.getD r.proxied } ∧
    (update_record (.ok ()) rid upd u db).1.dns_records.find? (fun x => x.id == rid) =
      some { r with content := upd.content.getD r.content,
                    ttl := upd.ttl.getD r.ttl,
                    proxied := upd.proxied.getD r.proxied } ∧
    (update_record (.ok ()) rid upd u db).1.users = db.users ∧
    ∀ x ∈ db.dns_records, (x.id == rid) = false →
      x ∈ (update_record (.ok ()) rid upd u db).1.dns_records := by
  have hres : update_record (.ok ()) rid upd u db =
      ({ users := db.users,
         dns_records := updateOne (fun x => x.id == rid)
           (fun x => { x with content := upd.content.getD r.content,
                              ttl := upd.ttl.getD r.ttl,
                              proxied := upd.proxied.getD r.proxied })
           db.dns_records },
       .ok { r with content := upd.content.getD r.content,
                    ttl := upd.ttl.getD r.ttl,
                    proxied := upd.proxied.getD r.proxied }) := by
    simp [update_record, hfind]
  refine ⟨by rw [hres], ?_, by rw [hres], ?_⟩
  · rw [hres]
    exact find?_updateOne (fun x => x.id == rid)
      (fun x => { x with content := upd.content.getD r.content,
                         ttl := upd.ttl.getD r.ttl,
                         proxied := upd.proxied.getD r.proxied })
      db.dns_records r hid (by simpa using List.find?_some hid)
  · intro x hx hpx
    rw [hres]
    exact mem_updateOne_of_neg _ _ hx hpx

/-- Witness for C7: updating only `content` leaves `ttl` and `proxied` at
their stored values and every identity field unchanged. -/
theorem update_record_merge_witness :
    (([recA] : List DNSRecord).find?
      (fun x => x.id == "rec-a" && x.user_id == userA.id) = some recA) ∧
    (([recA] : List DNSRecord).find? (fun x => x.id == "rec-a") = some recA) ∧
    ((update_record (.ok ()) "rec-a" { content := some "9.9.9.9" } userA
        { users := [userA], dns_records := [recA] }).2 =
      .ok { recA with
        content := ({ content := some "9.9.9.9" } : DNSRecordUpdate).content.getD recA.content,
        ttl := ({ content := some "9.9.9.9" } : DNSRecordUpdate).ttl.getD recA.ttl,
        proxied := ({ content := some "9.9.9.9" } : DNSRecordUpdate).proxied.getD recA.proxied } ∧
     (update_record (.ok ()) "rec-a" { content := some "9.9.9.9" } userA
        { users := [userA], dns_records := [recA] }).1.dns_records.find?
        (fun x => x.id == "rec-a") =
      some { recA with
        content := ({ content := some "9.9.9.9" } : DNSRecordUpdate).content.getD recA.content,
        ttl := ({ content := some "9.9.9.9" } : DNSRecordUpdate).ttl.getD recA.ttl,
        proxied := ({ content := some "9.9.9.9" } : DNSRecordUpdate).proxied.getD recA.proxied } ∧
     (update_record (.ok ()) "rec-a" { content := some "9.9.9.9" } userA
        { users := [userA], dns_records := [recA] }).1.users =
       ({ users := [userA], dns_records := [recA] } : DB).users ∧
     ∀ x ∈ ({ users := [userA], dns_records := [recA] } : DB).dns_records,
       (x.id == "rec-a") = false →
       x ∈ (update_record (.ok ()) "rec-a" { content := some "9.9.9.9" } userA
         { users := [userA], dns_records := [recA] }).1.dns_records) :=
  ⟨by decide, by decide,
   update_record_merge "rec-a" { content := some "9.9.9.9" } userA
     { users := [userA], dns_records := [recA] } recA (by decide) (by decide)⟩

/-- Claim C4 counterexample: an owner whose stored `record_count` is 0
completes a delete successfully and the stored `record_count` becomes -1:
the decrement is not clamped or floored, so a successful delete can freshly
produce a negative count. -/
theorem delete_negative_count_counterexample :
    (({ userA with record_count := 0 } : User).record_count = 0) ∧
    (delete_record (.ok ()) "rec-a" { userA with record_count := 0 }
       { users := [{ userA with record_count := 0 }], dns_records := [recA] }).2 =
      .ok "Record deleted successfully" ∧
    ((delete_record (.ok ()) "rec-a" { userA with record_count := 0 }
       { users := [{ userA with record_count := 0 }], dns_records := [recA] }).1.users.find?
       (fun x => x.id == userA.id)) = some { userA with record_count := -1 } :=
  ⟨rfl, by decide, by decide⟩

/-- Claim C4 (amended): a successful `delete_record` decrements the owner's
stored `record_count` by exactly 1, unconditionally — including from 0, which
yields -1; no clamping or flooring occurs. -/
theorem delete_record_decrements_unconditionally (rid : String) (u : User)
    (db : DB) (r : DNSRecord) (u₀ : User)
    (hfind : db.dns_records.find? (fun x => x.id == rid && x.user_id == u.id) = some r)
    (hu : db.users.find? (fun x => x.id == u.id) = some u₀) :
    (delete_record (.ok ()) rid u db).2 = .ok "Record deleted successfully" ∧
    (delete_record (.ok ()) rid u db).1.users.find? (fun x => x.id == u.id) =
      some { u₀ with record_count := u₀.record_count - 1 } := by
  have hres : delete_record (.ok ()) rid u db =
      ({ users := updateOne (fun x => x.id == u.id)
            (fun x => { x with record_count := x.record_count - 1 }) db.users,
         dns_records := deleteOne (fun x => x.id == rid) db.dns_records },
       .ok "Record deleted successfully") := by
    simp [delete_record, hfind]
  refine ⟨by rw [hres], ?_⟩
  rw [hres]
  exact find?_updateOne (fun x => x.id == u.id)
    (fun x => { x with record_count := x.record_count - 1 })
    db.users u₀ hu (by simpa using List.find?_some hu)

/-- Witness for C4's amended claim at stored count 5 (becomes 4). -/
theorem delete_record_decrements_unconditionally_witness :
    (([recA] : List DNSRecord).find?
      (fun x => x.id == "rec-a" && x.user_id == ({ userA with record_count := 5 } : User).id) = some recA) ∧
    (([{ userA with record_count := 5 }] : List User).find?
      (fun x => x.id == ({ userA with record_count := 5 } : User).id) =
      some { userA with record_count := 5 }) ∧
    ((delete_record (.ok ()) "rec-a" { userA with record_count := 5 }
        { users := [{ userA with record_count := 5 }], dns_records := [recA] }).2 =
      .ok "Record deleted successfully" ∧
     (delete_record (.ok ()) "rec-a" { userA with record_count := 5 }
        { users := [{ userA with record_count := 5 }], dns_records := [recA] }).1.users.find?
        (fun x => x.id == ({ userA with record_count := 5 } : User).id) =
      some { { userA with record_count := 5 } with
             record_count := ({ userA with record_count := 5 } : User).record_count - 1 }) :=
  ⟨by decide, by decide,
   delete_record_decrements_unconditionally "rec-a" { userA with record_count := 5 }
     { users := [{ userA with record_count := 5 }], dns_records := [recA] }
     recA { userA with record_count := 5 } (by decide) (by decide)⟩

/-- Claim C1 counterexample: for a target owner at quota (limit 0, owning one
record) and a (full name, type) pair already present in the Record Store,
`admin_create_record` neither fails with the quota error nor the duplicate
error — it succeeds and inserts the record. -/
theorem admin_create_counterexample :
    ((([recA] : List DNSRecord).filter (fun r => r.user_id == "user-a")).length : Int) ≥
      ({ userA with record_limit := 0 } : User).record_limit ∧
    (([recA] : List DNSRecord).find?
      (fun r => r.full_name == computeFullName "example.com" "www" &&
        r.record_type == "A")).isSome = true ∧
    (admin_create_record "example.com" (.ok "cf-new") "rec-new" "t1"
       { user_id := "user-a", name := "www", record_type := "A", content := "2.2.2.2" }
       { users := [{ userA with record_limit := 0 }], dns_records := [recA] }).2 =
      .ok { id := "rec-new", cf_record_id := "cf-new", user_id := "user-a",
            name := "www", full_name := "www.example.com", record_type := "A",
            content := "2.2.2.2", ttl := 1, proxied := false, created_at := "t1" } :=
  ⟨by decide, by decide, by decide⟩

/-- Claim C1 (amended): `admin_create_record` validates only the record type
and the target user's existence; it performs neither the quota check nor the
duplicate check of the self-service path, so with a valid type, an existing
target user and a successful provider call it succeeds and inserts the record
even when the target owner is at or above `record_limit` and the computed
(full name, type) pair already exists in the Record Store. -/
theorem admin_create_skips_quota_and_duplicate (zone cfId newId createdAt : String)
    (rd : AdminDNSRecordCreate) (db : DB) (tu : User)
    (hty : ["A", "AAAA", "CNAME"].contains rd.record_type = true)
    (hu : db.users.find? (fun x => x.id == rd.user_id) = some tu)
    (hq : ((db.dns_records.filter (fun r => r.user_id == rd.user_id)).length : Int) ≥ tu.record_limit)
    (hdup : (db.dns_records.find?
      (fun r => r.full_name == computeFullName zone rd.name &&
        r.record_type == rd.record_type)).isSome = true) :
    (admin_create_record zone (.ok cfId) newId createdAt rd db).2 =
      .ok { id := newId, cf_record_id := cfId, user_id := rd.user_id,
            name := rd.name, full_name := computeFullName zone rd.name,
            record_type := rd.record_type, content := rd.content,
            ttl := rd.ttl, proxied := rd.proxied, created_at := createdAt } ∧
    (admin_create_record zone (.ok cfId) newId createdAt rd db).1.dns_records =
      db.dns_records ++
        [{ id := newId, cf_record_id := cfId, user_id := rd.user_id,
           name := rd.name, full_name := computeFullName zone rd.name,
           record_type := rd.record_type, content := rd.content,
           ttl := rd.ttl, proxied := rd.proxied, created_at := createdAt }] := by
  have hres : admin_create_record zone (.ok cfId) newId createdAt rd db =
      ({ users := updateOne (fun x => x.id == rd.user_id)
            (fun x => { x with record_count := x.record_count + 1 }) db.users,
         dns_records := db.dns_records ++
           [{ id := newId, cf_record_id := cfId, user_id := rd.user_id,
              name := rd.name, full_name := computeFullName zone rd.name,
              record_type := rd.record_type, content := rd.content,
              ttl := rd.ttl, proxied := rd.proxied, created_at := createdAt }] },
       .ok { id := newId, cf_record_id := cfId, user_id := rd.user_id,
             name := rd.name, full_name := computeFullName zone rd.name,
             record_type := rd.record_type, content := rd.content,
             ttl := rd.ttl, proxied := rd.proxied, created_at := createdAt }) := by
    unfold admin_create_record
    rw [hty]
    simp [hu]
  exact ⟨by rw [hres], by rw [hres]⟩

/-- Witness for C1's amended claim: same scenario as the counterexample. -/
theorem admin_create_skips_quota_and_duplicate_witness :
    (["A", "AAAA", "CNAME"].contains "A" = true) ∧
    (([{ userA with record_limit := 0 }] : List User).find?
      (fun x => x.id == "user-a") = some { userA with record_limit := 0 }) ∧
    ((([recA] : List DNSRecord).filter (fun r => r.user_id == "user-a")).length : Int) ≥
      ({ userA with record_limit := 0 } : User).record_limit ∧
    (([recA] : List DNSRecord).find?
      (fun r => r.full_name == computeFullName "example.com" "www" &&
        r.record_type == "A")).isSome = true ∧
    ((admin_create_record "example.com" (.ok "cf-dup") "rec-dup" "t2"
        { user_id := "user-a", name := "www", record_type := "A", content := "3.3.3.3" }
        { users := [{ userA with record_limit := 0 }], dns_records := [recA] }).2 =
      .ok { id := "rec-dup", cf_record_id := "cf-dup", user_id := "user-a",
            name := "www", full_name := computeFullName "example.com" "www",
            record_type := "A", content := "3.3.3.3", ttl := 1, proxied := false,
            created_at := "t2" } ∧
     (admin_create_record "example.com" (.ok "cf-dup") "rec-dup" "t2"
        { user_id := "user-a", name := "www", record_type := "A", content := "3.3.3.3" }
        { users := [{ userA with record_limit := 0 }], dns_records := [recA] }).1.dns_records =
      [recA] ++
        [{ id := "rec-dup", cf_record_id := "cf-dup", user_id := "user-a",
           name := "www", full_name := computeFullName "example.com" "www",
           record_type := "A", content := "3.3.3.3", ttl := 1, proxied := false,
           created_at := "t2" }]) :=
  ⟨by decide, by decide, by decide, by decide,
   admin_create_skips_quota_and_duplicate "example.com" "cf-dup" "rec-dup" "t2"
     { user_id := "user-a", name := "www", record_type := "A", content := "3.3.3.3" }
     { users := [{ userA with record_limit := 0 }], dns_records := [recA] }
     { userA with record_limit := 0 } (by decide) (by decide) (by decide) (by decide)⟩

/-- Claim C8: when a registration carries a referral code matching an existing
account, `register` ends in a state whose `users` list is the old list with
the referrer's `record_limit` and `referral_bonus` incremented by the
configured bonus and `referral_count` by 1, with the new account document
appended after it — i.e. the credit is applied to the users collection before
the new account is persisted — and the new account's `referred_by` equals the
referrer's id.  The second conjunct reads back the referrer's exact deltas. -/
theorem register_referral_credit (default_free bonus : Int)
    (newUserId refCode pwHash createdAt : String) (reg : UserRegister) (db : DB)
    (code : String) (referrer : User)
    (hg : strEndsWith (strLower reg.email) "@gmail.com" = true)
    (he : db.users.find? (fun x => x.email == reg.email) = none)
    (hcode : reg.referral_code = some code)
    (hne : (code != "") = true)
    (href : db.users.find? (fun x => x.referral_code == code) = some referrer)
    (hrefid : db.users.find? (fun x => x.id == referrer.id) = some referrer) :
    register default_free bonus newUserId refCode pwHash createdAt reg db =
      ({ users := updateOne (fun x => x.id == referrer.id)
            (fun x => { x with record_limit := x.record_limit + bonus,
                               referral_count := x.referral_count + 1,
                               referral_bonus := x.referral_bonus + bonus })
            db.users ++
          [{ id := newUserId, email := reg.email, name := reg.name,
             password_hash := pwHash, plan := "free", role := "user",
             record_count := 0, record_limit := default_free,
             referral_code := refCode, referred_by := some referrer.id,
             referral_count := 0, referral_bonus := 0, created_at := createdAt }],
         dns_records := db.dns_records },
       .ok { id := newUserId, email := reg.email, name := reg.name,
             password_hash := pwHash, plan := "free", role := "user",
             record_count := 0, record_limit := default_free,
             referral_code := refCode, referred_by := some referrer.id,
             referral_count := 0, referral_bonus := 0, created_at := createdAt }) ∧
    (register default_free bonus newUserId refCode pwHash createdAt reg db).1.users.find?
        (fun x => x.id == referrer.id) =
      some { referrer with record_limit := referrer.record_limit + bonus,
                           referral_count := referrer.referral_count + 1,
                           referral_bonus := referrer.referral_bonus + bonus } := by
  have hres : register default_free bonus newUserId refCode pwHash createdAt reg db =
      ({ users := updateOne (fun x => x.id == referrer.id)
            (fun x => { x with record_limit := x.record_limit + bonus,
                               referral_count := x.referral_count + 1,
                               referral_bonus := x.referral_bonus + bonus })
            db.users ++
          [{ id := newUserId, email := reg.email, name := reg.name,
             password_hash := pwHash, plan := "free", role := "user",
             record_count := 0, record_limit := default_free,
             referral_code := refCode, referred_by := some referrer.id,
             referral_count := 0, referral_bonus := 0, created_at := createdAt }],
         dns_records := db.dns_records },
       .ok { id := newUserId, email := reg.email, name := reg.name,
             password_hash := pwHash, plan := "free", role := "user",
             record_count := 0, record_limit := default_free,
             referral_code := refCode, referred_by := some referrer.id,
             referral_count := 0, referral_bonus := 0, created_at := createdAt }) := by
    unfold register
    rw [hg]
    simp [he, hcode, hne, href]
  refine ⟨hres, ?_⟩
  rw [hres]
  exact find?_append_left _ _ _ _
    (find?_updateOne (fun x => x.id == referrer.id)
      (fun x => { x with record_limit := x.record_limit + bonus,
                         referral_count := x.referral_count + 1,
                         referral_bonus := x.referral_bonus + bonus })
      db.users referrer hrefid (by simpa using List.find?_some hrefid))

/-- Witness for C8: account B registers with A's code and bonus 2. -/
theorem register_referral_credit_witness :
    (strEndsWith (strLower "bee@gmail.com") "@gmail.com" = true) ∧
    (([userA] : List User).find? (fun x => x.email == "bee@gmail.com") = none) ∧
    ((some "code-a" : Option String) = some "code-a") ∧
    (("code-a" != "") = true) ∧
    (([userA] : List User).find? (fun x => x.referral_code == "code-a") = some userA) ∧
    (([userA] : List User).find? (fun x => x.id == userA.id) = some userA) ∧
    (register 2 2 "user-b" "code-b" "hb" "t1"
        { email := "bee@gmail.com", password := "secret1", name := "Bee",
          referral_code := some "code-a" }
        { users := [userA], dns_records := [] } =
      ({ users := updateOne (fun x => x.id == userA.id)
            (fun x => { x with record_limit := x.record_limit + 2,
                               referral_count := x.referral_count + 1,
                               referral_bonus := x.referral_bonus + 2 })
            [userA] ++
          [{ id := "user-b", email := "bee@gmail.com", name := "Bee",
             password_hash := "hb", plan := "free", role := "user",
             record_count := 0, record_limit := 2,
             referral_code := "code-b", referred_by := some userA.id,
             referral_count := 0, referral_bonus := 0, created_at := "t1" }],
         dns_records := [] },
       .ok { id := "user-b", email := "bee@gmail.com", name := "Bee",
             password_hash := "hb", plan := "free", role := "user",
             record_count := 0, record_limit := 2,
             referral_code := "code-b", referred_by := some userA.id,
             referral_count := 0, referral_bonus := 0, created_at := "t1" }) ∧
     (register 2 2 "user-b" "code-b" "hb" "t1"
        { email := "bee@gmail.com", password := "secret1", name := "Bee",
          referral_code := some "code-a" }
        { users := [userA], dns_records := [] }).1.users.find?
        (fun x => x.id == userA.id) =
      some { userA with record_limit := userA.record_limit + 2,
                        referral_count := userA.referral_count + 1,
                        referral_bonus := userA.referral_bonus + 2 }) :=
  ⟨by decide, by decide, rfl, by decide, by decide, by decide,
   register_referral_credit 2 2 "user-b" "code-b" "hb" "t1"
     { email := "bee@gmail.com", password := "secret1", name := "Bee",
       referral_code := some "code-a" }
     { users := [userA], dns_records := [] } "code-a" userA
     (by decide) (by decide) rfl (by decide) (by decide) (by decide)⟩

/-- Claim C9 counterexample: the owner already has an AAAA record with the
same full name, content, ttl and proxied flag; after a successful A-record
create, the owner's listing contains two entries matching the create input on
(content, ttl, proxied, full name) — not exactly one. -/
theorem create_then_list_counterexample :
    ((create_record "example.com" (.ok "cf-new") "rec-new" "t1"
        { name := "www", record_type := "A", content := "1.1.1.1" }
        { userA with record_limit := 5 }
        { users := [{ userA with record_limit := 5 }],
          dns_records := [{ recA with id := "rec-b", record_type := "AAAA" }] }).2 =
      .ok { id := "rec-new", cf_record_id := "cf-new", user_id := "user-a",
            name := "www", full_name := "www.example.com", record_type := "A",
            content := "1.1.1.1", ttl := 1, proxied := false, created_at := "t1" }) ∧
    (((list_records { userA with record_limit := 5 }
        (create_record "example.com" (.ok "cf-new") "rec-new" "t1"
          { name := "www", record_type := "A", content := "1.1.1.1" }
          { userA with record_limit := 5 }
          { users := [{ userA with record_limit := 5 }],
            dns_records := [{ recA with id := "rec-b", record_type := "AAAA" }] }).1).filter
        (fun e => e.content == "1.1.1.1" && e.ttl == 1 && e.proxied == false &&
          e.full_name == computeFullName "example.com" "www")).length = 2) :=
  ⟨by decide, by decide⟩

/-- Claim C9 (amended): after a successful `create_record`, a `list_records`
for the same owner contains exactly one entry matching the create input on
content, ttl, proxied, *record type* and the computed full name
(`{name}.{zone}`, or the zone itself for the apex marker `@` — this is
`computeFullName`), provided the owner's pre-create record count stays under
the listing's 100-entry cap. -/
theorem create_then_list_roundtrip (zone cfId newId createdAt : String)
    (rd : DNSRecordCreate) (u : User) (db : DB)
    (hty : ["A", "AAAA", "CNAME"].contains rd.record_type = true)
    (hq : ((db.dns_records.filter (fun r => r.user_id == u.id)).length : Int) < u.record_limit)
    (hdup : db.dns_records.find?
      (fun r => r.full_name == computeFullName zone rd.name &&
        r.record_type == rd.record_type) = none)
    (hcap : (db.dns_records.filter (fun r => r.user_id == u.id)).length ≤ 99) :
    (create_record zone (.ok cfId) newId createdAt rd u db).2 =
      .ok { id := newId, cf_record_id := cfId, user_id := u.id, name := rd.name,
            full_name := computeFullName zone rd.name, record_type := rd.record_type,
            content := rd.content, ttl := rd.ttl, proxied := rd.proxied,
            created_at := createdAt } ∧
    ((list_records u (create_record zone (.ok cfId) newId createdAt rd u db).1).filter
       (fun e => e.content == rd.content && e.ttl == rd.ttl &&
         e.proxied == rd.proxied && e.record_type == rd.record_type &&
         e.full_name == computeFullName zone rd.name)).length = 1 := by
  have hres : create_record zone (.ok cfId) newId createdAt rd u db =
      ({ users := updateOne (fun x => x.id == u.id)
            (fun x => { x with record_count := x.record_count + 1 }) db.users,
         dns_records := db.dns_records ++
           [{ id := newId, cf_record_id := cfId, user_id := u.id, name := rd.name,
              full_name := computeFullName zone rd.name, record_type := rd.record_type,
              content := rd.content, ttl := rd.ttl, proxied := rd.proxied,
              created_at := createdAt }] },
       .ok { id := newId, cf_record_id := cfId, user_id := u.id, name := rd.name,
             full_name := computeFullName zone rd.name, record_type := rd.record_type,
             content := rd.content, ttl := rd.ttl, proxied := rd.proxied,
             created_at := createdAt }) := by
    unfold create_record
    rw [hty]
    simp [not_le.mpr hq, hdup]
  have hnone : ∀ x ∈ db.dns_records.filter (fun r => r.user_id == u.id),
      ¬((x.content == rd.content && x.ttl == rd.ttl && x.proxied == rd.proxied &&
        x.record_type == rd.record_type &&
        x.full_name == computeFullName zone rd.name) = true) := by
    intro x hx hq1
    have hxm : x ∈ db.dns_records := (List.mem_filter.mp hx).1
    have hnd := List.find?_eq_none.mp hdup x hxm
    apply hnd
    simp only [Bool.and_eq_true] at hq1 ⊢
    exact ⟨hq1.2, hq1.1.2⟩
  refine ⟨by rw [hres], ?_⟩
  rw [hres]
  unfold list_records
  rw [List.filter_append]
  have howner : (([{ id := newId, cf_record_id := cfId, user_id := u.id,
                     name := rd.name, full_name := computeFullName zone rd.name,
                     record_type := rd.record_type, content := rd.content,
                     ttl := rd.ttl, proxied := rd.proxied,
                     created_at := createdAt }] : List DNSRecord).filter
      (fun r => r.user_id == u.id)) =
      [{ id := newId, cf_record_id := cfId, user_id := u.id, name := rd.name,
         full_name := computeFullName zone rd.name, record_type := rd.record_type,
         content := rd.content, ttl := rd.ttl, proxied := rd.proxied,
         created_at := createdAt }] := by
    simp
  rw [howner]
  have hlen : ((db.dns_records.filter (fun r : DNSRecord => r.user_id == u.id)) ++
      ([{ id := newId, cf_record_id := cfId, user_id := u.id, name := rd.name,
          full_name := computeFullName zone rd.name, record_type := rd.record_type,
          content := rd.content, ttl := rd.ttl, proxied := rd.proxied,
          created_at := createdAt }] : List DNSRecord)).length ≤ 100 := by
    rw [List.length_append]
    simpa using Nat.add_le_add hcap (le_refl 1)
  rw [List.take_of_length_le hlen, List.filter_append]
  have hfilter : ((db.dns_records.filter (fun r => r.user_id == u.id)).filter
      (fun e => e.content == rd.content && e.ttl == rd.ttl &&
        e.proxied == rd.proxied && e.record_type == rd.record_type &&
        e.full_name == computeFullName zone rd.name)) = [] :=
    List.filter_eq_nil_iff.mpr hnone
  rw [hfilter]
  simp

/-- Witness for C9's amended claim: create into an empty store, then list. -/
theorem create_then_list_roundtrip_witness :
    (["A", "AAAA", "CNAME"].contains "A" = true) ∧
    (((([] : List DNSRecord).filter (fun r => r.user_id == userA.id)).length : Int) <
      userA.record_limit) ∧
    (([] : List DNSRecord).find?
      (fun r => r.full_name == computeFullName "example.com" "www" &&
        r.record_type == "A") = none) ∧
    ((([] : List DNSRecord).filter (fun r => r.user_id == userA.id)).length ≤ 99) ∧
    ((create_record "example.com" (.ok "cf-new") "rec-new" "t1"
        { name := "www", record_type := "A", content := "1.1.1.1" } userA
        { users := [userA], dns_records := [] }).2 =
      .ok { id := "rec-new", cf_record_id := "cf-new", user_id := userA.id,
            name := "www", full_name := computeFullName "example.com" "www",
            record_type := "A", content := "1.1.1.1", ttl := 1, proxied := false,
            created_at := "t1" } ∧
     ((list_records userA (create_record "example.com" (.ok "cf-new") "rec-new" "t1"
         { name := "www", record_type := "A", content := "1.1.1.1" } userA
         { users := [userA], dns_records := [] }).1).filter
        (fun e => e.content == "1.1.1.1" && e.ttl == 1 && e.proxied == false &&
          e.record_type == "A" &&
          e.full_name == computeFullName "example.com" "www")).length = 1) :=
  ⟨by decide, by decide, by decide, by decide,
   create_then_list_roundtrip "example.com" "cf-new" "rec-new" "t1"
     { name := "www", record_type := "A", content := "1.1.1.1" } userA
     { users := [userA], dns_records := [] }
     (by decide) (by decide) (by decide) (by decide)⟩

end DDNS
